import Mathlib

/-
Shallow embedding of net-ping (src/main.py).

The program sends count probes to a host, classifies each attempt, and
reports summary statistics.  The external world seen by one attempt
(name resolution, the datagram exchange, the clock readings from
time.time) is modelled by ProbeEnv; exceptions raised inside the body of
send_ping are modelled by PyResult/PyExc, and the try/except wrapper of
send_ping converts them to values, exactly as in the source.  Times are
rationals; the Python int count is an integer, since argparse accepts
negative values and range of a negative int is empty.
-/

/-- What the external world does during one call of send_ping:
resolution fails (socket.gaierror), the wait times out (socket.timeout),
some other exception is raised, or a response arrives, with the two
values returned by time.time at lines 65 and 68 of src/main.py. -/
inductive ProbeEnv : Type
  | resolutionFailure : ProbeEnv
  | timeoutExc : ProbeEnv
  | otherExc (msg : String) : ProbeEnv
  | response (startTime endTime : ℚ) : ProbeEnv
deriving DecidableEq

/-- The exceptions the try block of send_ping can raise, one per except
clause in src/main.py lines 72-80. -/
inductive PyExc : Type
  | gaierror : PyExc
  | timeoutErr : PyExc
  | other (msg : String) : PyExc
deriving DecidableEq

/-- Result of running a Python block: a value, or a raised exception. -/
inductive PyResult (A : Type) : Type
  | ok (a : A) : PyResult A
  | exc (e : PyExc) : PyResult A
deriving DecidableEq

/-- The try block of send_ping (src/main.py lines 56-71): resolve, open a
socket, send, receive, and return the elapsed time in milliseconds
computed as (end_time - start_time) * 1000.  No clamping is applied to
the difference. -/
def send_ping_body (env : ProbeEnv) : PyResult ℚ :=
  match env with
  | ProbeEnv.resolutionFailure => PyResult.exc PyExc.gaierror
  | ProbeEnv.timeoutExc => PyResult.exc PyExc.timeoutErr
  | ProbeEnv.otherExc m => PyResult.exc (PyExc.other m)
  | ProbeEnv.response s e => PyResult.ok ((e - s) * 1000)

/-- Observable events of a run, one constructor per logging call in
src/main.py that depends on the run. -/
inductive Event : Type
  | startSession (count : ℤ) : Event
  | sendingPing (i : ℕ) : Event
  | resolveError : Event
  | timeoutWarning : Event
  | otherErrorLog (msg : String) : Event
  | pingOutcome (i : ℕ) (r : Option ℚ) : Event
  | statsReport (sent : ℤ) (received : ℕ) (lost : ℤ) (averageMillis : ℚ) : Event
  | noResponsesMsg : Event
deriving DecidableEq

/-- The log line emitted by each except clause of send_ping: gaierror
logs a resolution error (line 73), timeout logs a warning (line 76), any
other exception logs an error carrying its message (line 79). -/
def exceptLog : PyExc → Event
  | PyExc.gaierror => Event.resolveError
  | PyExc.timeoutErr => Event.timeoutWarning
  | PyExc.other m => Event.otherErrorLog m

/-- send_ping (src/main.py lines 45-80): run the body; every except
clause returns None, so a raised exception becomes the value none and
never propagates to the caller. -/
def send_ping (env : ProbeEnv) : Option ℚ :=
  match send_ping_body env with
  | PyResult.ok rt => some rt
  | PyResult.exc _ => none

/-- One iteration of the accumulation in main (src/main.py lines
101-106): on a response, increment successful_pings and add the response
time to total_time; otherwise leave both unchanged. -/
def pingStep (env : ProbeEnv) (st : ℕ × ℚ) : ℕ × ℚ :=
  match send_ping env with
  | some rt => (st.1 + 1, st.2 + rt)
  | none => st

/-- The events of iteration i (0-based) of the loop in main: the
"Sending ping i+1" line (line 98), the internal log of send_ping when an
exception was caught, and the per-attempt outcome line (line 102 or
106). -/
def attemptEvents (i : ℕ) (env : ProbeEnv) : List Event :=
  Event.sendingPing (i + 1) ::
    (match send_ping_body env with
     | PyResult.ok _ => []
     | PyResult.exc e => [exceptLog e]) ++
    [Event.pingOutcome (i + 1) (send_ping env)]

/-- The first n iterations of the loop in main (src/main.py lines
97-106), started from successful_pings = 0, total_time = 0; the
environment of iteration i is env i.  Returns the accumulator and the
events in emission order. -/
def runLoopAux (env : ℕ → ProbeEnv) : ℕ → (ℕ × ℚ) × List Event
  | 0 => ((0, 0), [])
  | n + 1 =>
    let p := runLoopAux env n
    (pingStep (env n) p.1, p.2 ++ attemptEvents n (env n))

/-- The whole loop of main for a Python int count: range(count) performs
count.toNat iterations (empty when count <= 0). -/
def runSession (count : ℤ) (env : ℕ → ProbeEnv) : (ℕ × ℚ) × List Event :=
  runLoopAux env count.toNat

/-- The final summary of main (src/main.py lines 108-114). -/
inductive Summary : Type
  | stats (sent : ℤ) (received : ℕ) (lost : ℤ) (averageMillis : ℚ) : Summary
  | noResponses : Summary
deriving DecidableEq

/-- Lines 108-114 of src/main.py: if successful_pings > 0 report sent =
count, received = successful_pings, lost = count - successful_pings and
average = total_time / successful_pings; otherwise report only that no
responses were received. -/
def summarize (count : ℤ) (st : ℕ × ℚ) : Summary :=
  if 0 < st.1 then
    Summary.stats count st.1 (count - (st.1 : ℤ)) (st.2 / (st.1 : ℚ))
  else
    Summary.noResponses

/-- The summary produced by a full run of main. -/
def sessionSummary (count : ℤ) (env : ℕ → ProbeEnv) : Summary :=
  summarize count (runSession count env).1

/-- The summary events logged at the end of main, mirroring summarize. -/
def summaryEvents (count : ℤ) (st : ℕ × ℚ) : List Event :=
  if 0 < st.1 then
    [Event.statsReport count st.1 (count - (st.1 : ℤ)) (st.2 / (st.1 : ℚ))]
  else
    [Event.noResponsesMsg]

/-- Every event logged by a full run of main, in order: the start
message (line 92), the loop events, and the summary block. -/
def sessionEvents (count : ℤ) (env : ℕ → ProbeEnv) : List Event :=
  Event.startSession count ::
    (runSession count env).2 ++ summaryEvents count (runSession count env).1

/-- Number of attempts among the first n whose send_ping call returned a
response time (specification-level count, defined independently of the
loop accumulator). -/
def countSuccesses (env : ℕ → ProbeEnv) (n : ℕ) : ℕ :=
  ((List.range n).filter (fun i => (send_ping (env i)).isSome)).length

/-- Sum of the response times of the successful attempts among the first
n (specification-level total, defined independently of the loop). -/
def totalElapsed (env : ℕ → ProbeEnv) (n : ℕ) : ℚ :=
  ((List.range n).filterMap (fun i => send_ping (env i))).sum

/-- Recognizes the per-attempt outcome lines among the events. -/
def isOutcomeEvent : Event → Bool
  | Event.pingOutcome _ _ => true
  | _ => false

/-- Whether a summary reports the given sent, received and lost counts:
the no-responses branch of src/main.py prints no counts at all. -/
def reportsCounts (s : Summary) (sent : ℤ) (received : ℕ) (lost : ℤ) : Bool :=
  match s with
  | Summary.stats a b c _ => a == sent && b == received && c == lost
  | Summary.noResponses => false

/-- Environment of the four-attempt scenario of the spec: success with
10 ms, timeout, success with 20 ms, other error. -/
def pingEnvMixed : ℕ → ProbeEnv := fun i =>
  if i = 0 then ProbeEnv.response 0 (1 / 100)
  else if i = 1 then ProbeEnv.timeoutExc
  else if i = 2 then ProbeEnv.response 0 (1 / 50)
  else ProbeEnv.otherExc "x"

/-- Environment in which every attempt times out. -/
def allTimeoutEnv : ℕ → ProbeEnv := fun _ => ProbeEnv.timeoutExc

/-- Environment whose single attempt gets a response while the clock
steps backwards: time.time returns 1 before the send and 1/2 after the
response. -/
def negClockEnv : ℕ → ProbeEnv := fun _ => ProbeEnv.response 1 (1 / 2)

lemma runLoopAux_stats (env : ℕ → ProbeEnv) (n : ℕ) :
    (runLoopAux env n).1 = (countSuccesses env n, totalElapsed env n) := by
  induction n with
  | zero => simp [runLoopAux, countSuccesses, totalElapsed]
  | succ n ih =>
    cases hs : send_ping (env n) with
    | none =>
      simp [runLoopAux, pingStep, hs, ih, countSuccesses, totalElapsed,
        List.range_succ, List.filter_append, List.filterMap_append]
    | some q =>
      simp [runLoopAux, pingStep, hs, ih, countSuccesses, totalElapsed,
        List.range_succ, List.filter_append, List.filterMap_append]

lemma countSuccesses_le (env : ℕ → ProbeEnv) (n : ℕ) :
    countSuccesses env n ≤ n := by
  have h := List.length_filter_le (fun i => (send_ping (env i)).isSome) (List.range n)
  simpa [countSuccesses] using h

lemma countSuccesses_eq_zero (env : ℕ → ProbeEnv) (n : ℕ)
    (h : ∀ i, i < n → send_ping (env i) = none) : countSuccesses env n = 0 := by
  unfold countSuccesses
  rw [List.length_eq_zero, List.filter_eq_nil_iff]
  intro a ha
  simp [h a (List.mem_range.mp ha)]

lemma attemptEvents_filter (i : ℕ) (env : ProbeEnv) :
    (attemptEvents i env).filter isOutcomeEvent
      = [Event.pingOutcome (i + 1) (send_ping env)] := by
  cases env <;>
    simp [attemptEvents, send_ping, send_ping_body, exceptLog, isOutcomeEvent]

lemma runLoopAux_outcomes (env : ℕ → ProbeEnv) (n : ℕ) :
    ((runLoopAux env n).2).filter isOutcomeEvent
      = (List.range n).map (fun i => Event.pingOutcome (i + 1) (send_ping (env i))) := by
  induction n with
  | zero => simp [runLoopAux]
  | succ n ih =>
    simp [runLoopAux, List.filter_append, ih, attemptEvents_filter, List.range_succ]

lemma summaryEvents_filter (count : ℤ) (st : ℕ × ℚ) :
    (summaryEvents count st).filter isOutcomeEvent = [] := by
  unfold summaryEvents
  by_cases h : 0 < st.1 <;> simp [h, isOutcomeEvent]

lemma sendingPing_mem (env : ℕ → ProbeEnv) {i n : ℕ} (h : i < n) :
    Event.sendingPing (i + 1) ∈ (runLoopAux env n).2 := by
  induction n with
  | zero => exact absurd h (Nat.not_lt_zero i)
  | succ n ih =>
    rcases Nat.lt_succ_iff_lt_or_eq.mp h with h | h
    · exact List.mem_append_left _ (ih h)
    · subst h
      exact List.mem_append_right _ (List.mem_cons_self _ _)

/-- C1: for every run with count >= 0, the final summary either is the
packet-statistics block with sent = count, received = the number of
successful attempts and lost = sent - received exactly (so
received + lost = sent), or is the no-responses message, which is
emitted precisely when no attempt succeeded; received never exceeds
sent. -/
theorem c1_summary_counts (count : ℤ) (env : ℕ → ProbeEnv) (h : 0 ≤ count) :
    countSuccesses env count.toNat ≤ count.toNat ∧
    (count - (countSuccesses env count.toNat : ℤ))
        + countSuccesses env count.toNat = count ∧
    ((sessionSummary count env = Summary.noResponses ∧
        countSuccesses env count.toNat = 0) ∨
      sessionSummary count env =
        Summary.stats count (countSuccesses env count.toNat)
          (count - (countSuccesses env count.toNat : ℤ))
          (totalElapsed env count.toNat / (countSuccesses env count.toNat : ℚ))) := by
  refine ⟨countSuccesses_le env count.toNat, by ring, ?_⟩
  unfold sessionSummary runSession
  rw [runLoopAux_stats]
  by_cases h0 : 0 < countSuccesses env count.toNat
  · exact Or.inr (by simp [summarize, h0])
  · exact Or.inl ⟨by simp [summarize, h0], by omega⟩

/-- Witness for C1 at count = 4 with the mixed environment. -/
theorem c1_summary_counts_witness :
    (0 : ℤ) ≤ 4 ∧
      (countSuccesses pingEnvMixed (4 : ℤ).toNat ≤ (4 : ℤ).toNat ∧
        ((4 : ℤ) - (countSuccesses pingEnvMixed (4 : ℤ).toNat : ℤ))
            + countSuccesses pingEnvMixed (4 : ℤ).toNat = (4 : ℤ) ∧
        ((sessionSummary 4 pingEnvMixed = Summary.noResponses ∧
            countSuccesses pingEnvMixed (4 : ℤ).toNat = 0) ∨
          sessionSummary 4 pingEnvMixed =
            Summary.stats 4 (countSuccesses pingEnvMixed (4 : ℤ).toNat)
              ((4 : ℤ) - (countSuccesses pingEnvMixed (4 : ℤ).toNat : ℤ))
              (totalElapsed pingEnvMixed (4 : ℤ).toNat /
                (countSuccesses pingEnvMixed (4 : ℤ).toNat : ℚ)))) :=
  ⟨by decide, c1_summary_counts 4 pingEnvMixed (by decide)⟩

/-- C2: whenever at least one attempt succeeded, the reported average is
the accumulated total elapsed time divided by the number of successes;
the concrete scenario of the spec (success 10 ms, timeout, success
20 ms, other error) is checked in the witness, giving sent 4, received
2, lost 2, average 15 ms. -/
theorem c2_average (count : ℤ) (env : ℕ → ProbeEnv)
    (h : 0 < countSuccesses env count.toNat) :
    sessionSummary count env =
      Summary.stats count (countSuccesses env count.toNat)
        (count - (countSuccesses env count.toNat : ℤ))
        (totalElapsed env count.toNat / (countSuccesses env count.toNat : ℚ)) := by
  unfold sessionSummary runSession
  rw [runLoopAux_stats]
  simp [summarize, h]

/-- Witness for C2: the four-attempt scenario yields sent 4, received 2,
lost 2 and average 15 ms. -/
theorem c2_average_witness :
    0 < countSuccesses pingEnvMixed (4 : ℤ).toNat ∧
      sessionSummary 4 pingEnvMixed = Summary.stats 4 2 2 15 := by
  refine ⟨by decide, ?_⟩
  have h := c2_average 4 pingEnvMixed (by decide)
  have hcs : countSuccesses pingEnvMixed (4 : ℤ).toNat = 2 := by decide
  have hte : totalElapsed pingEnvMixed (4 : ℤ).toNat = 30 := by
    have h4 : (4 : ℤ).toNat = 4 := rfl
    rw [totalElapsed, h4]
    simp [List.range_succ, pingEnvMixed, send_ping, send_ping_body]
    norm_num
  rw [h, hcs, hte]
  norm_num

/-- C3: every exception raised inside the probe body is converted at the
attempt boundary into the value none together with one classified log
event (the classification is injective, so the three failure kinds stay
distinguishable); the loop still reaches every attempt index, and a run
in which every attempt fails still ends with the no-responses summary
event. -/
theorem c3_error_handling :
    (∀ (i : ℕ) (env : ProbeEnv) (e : PyExc),
        send_ping_body env = PyResult.exc e →
          send_ping env = none ∧
            attemptEvents i env
              = [Event.sendingPing (i + 1), exceptLog e,
                  Event.pingOutcome (i + 1) none]) ∧
    Function.Injective exceptLog ∧
    (∀ (count : ℤ) (env : ℕ → ProbeEnv) (i : ℕ), i < count.toNat →
        Event.sendingPing (i + 1) ∈ sessionEvents count env) ∧
    (∀ (count : ℤ) (env : ℕ → ProbeEnv), (∀ i, send_ping (env i) = none) →
        sessionSummary count env = Summary.noResponses ∧
          Event.noResponsesMsg ∈ sessionEvents count env) := by
  refine ⟨?_, ?_, ?_, ?_⟩
  · intro i env e he
    constructor
    · unfold send_ping
      rw [he]
    · simp [attemptEvents, he, send_ping]
  · intro a b hab
    cases a <;> cases b <;> simp_all [exceptLog]
  · intro count env i hi
    unfold sessionEvents
    exact List.mem_cons_of_mem _ (List.mem_append_left _ (sendingPing_mem env hi))
  · intro count env hall
    have h0 : countSuccesses env count.toNat = 0 :=
      countSuccesses_eq_zero env count.toNat (fun i _ => hall i)
    have hsum : summaryEvents count (runSession count env).1
        = [Event.noResponsesMsg] := by
      unfold runSession
      rw [runLoopAux_stats]
      simp [summaryEvents, h0]
    constructor
    · unfold sessionSummary runSession
      rw [runLoopAux_stats]
      simp [summarize, h0]
    · unfold sessionEvents
      rw [hsum]
      exact List.mem_cons_of_mem _
        (List.mem_append_right _ (List.mem_singleton.mpr rfl))

/-- Witness for C3: a timeout attempt yields the value none, and a run
of three failing attempts still produces the no-responses summary. -/
theorem c3_error_handling_witness :
    send_ping ProbeEnv.timeoutExc = none ∧
      sessionSummary 3 allTimeoutEnv = Summary.noResponses :=
  ⟨(c3_error_handling.1 0 ProbeEnv.timeoutExc PyExc.timeoutErr rfl).1,
    (c3_error_handling.2.2.2 3 allTimeoutEnv (fun _ => rfl)).1⟩

/-- C4 failing input: the probe succeeds while time.time steps backwards
from 1 s to 1/2 s; send_ping returns -500 ms, a negative value, because
lines 70-71 of src/main.py apply no clamping to
(end_time - start_time) * 1000. -/
theorem c4_no_clamp :
    send_ping (ProbeEnv.response 1 (1 / 2)) = some (-500) ∧
      ((-500 : ℚ) < 0) := by
  constructor
  · rw [send_ping, send_ping_body]
    norm_num
  · norm_num

/-- C5 failing input: with count = 1 and a single successful attempt
whose clock stepped backwards, the loop of src/main.py lines 97-106
leaves total_time = -500 < 0, violating the invariant
totalElapsedMillis >= 0. -/
theorem c5_negative_total :
    (runSession 1 negClockEnv).1 = (1, -500) ∧
      ¬ (0 ≤ (runSession 1 negClockEnv).1.2) := by
  have h1 : (runSession 1 negClockEnv).1 = (1, -500) := by
    show pingStep (negClockEnv 0) (0, 0) = (1, -500)
    rw [pingStep, negClockEnv]
    norm_num [send_ping, send_ping_body, Prod.ext_iff]
  have h2 : (runSession 1 negClockEnv).1.2 = -500 := by rw [h1]
  refine ⟨h1, ?_⟩
  rw [h2]
  norm_num

/-- C6: when every attempt fails, the summary is the no-responses
message and the summary block containing the division by
successful_pings is never produced (lines 108-112 are guarded by
successful_pings > 0). -/
theorem c6_no_division (count : ℤ) (env : ℕ → ProbeEnv)
    (h : ∀ i, i < count.toNat → send_ping (env i) = none) :
    sessionSummary count env = Summary.noResponses ∧
      summaryEvents count (runSession count env).1 = [Event.noResponsesMsg] := by
  have h0 := countSuccesses_eq_zero env count.toNat h
  constructor
  · unfold sessionSummary runSession
    rw [runLoopAux_stats]
    simp [summarize, h0]
  · unfold runSession
    rw [runLoopAux_stats]
    simp [summaryEvents, h0]

/-- Witness for C6 with two timing-out attempts. -/
theorem c6_no_division_witness :
    sessionSummary 2 allTimeoutEnv = Summary.noResponses ∧
      summaryEvents 2 (runSession 2 allTimeoutEnv).1 = [Event.noResponsesMsg] :=
  c6_no_division 2 allTimeoutEnv (fun _ _ => rfl)

/-- C7 counterexample: at count = 0 the code takes the else branch at
line 114 and prints only the no-responses message; no sent = 0,
received = 0, lost = 0 counts are reported. -/
theorem c7_counterexample :
    sessionSummary 0 allTimeoutEnv = Summary.noResponses ∧
      reportsCounts (sessionSummary 0 allTimeoutEnv) 0 0 0 = false := by decide

/-- C7 amended: when count = 0 the loop body never executes (no events,
accumulator stays (0, 0)) and the emitted summary is the explicit
no-responses indicator, which carries no counts and no average. -/
theorem c7_zero_count (env : ℕ → ProbeEnv) :
    (runSession 0 env).2 = [] ∧ (runSession 0 env).1 = (0, 0) ∧
      sessionSummary 0 env = Summary.noResponses :=
  ⟨rfl, rfl, rfl⟩

/-- C8: for count >= 0, the per-attempt outcome events of a run are
exactly one per iteration, in attempt order, and their number equals
count. -/
theorem c8_outcome_events (count : ℤ) (env : ℕ → ProbeEnv) (h : 0 ≤ count) :
    (sessionEvents count env).filter isOutcomeEvent
        = (List.range count.toNat).map
            (fun i => Event.pingOutcome (i + 1) (send_ping (env i))) ∧
      ((sessionEvents count env).filter isOutcomeEvent).length = count.toNat ∧
      (count.toNat : ℤ) = count := by
  have hfilter : (sessionEvents count env).filter isOutcomeEvent
      = ((runSession count env).2).filter isOutcomeEvent := by
    simp [sessionEvents, List.filter_append, summaryEvents_filter, isOutcomeEvent]
  have hmain : ((runSession count env).2).filter isOutcomeEvent
      = (List.range count.toNat).map
          (fun i => Event.pingOutcome (i + 1) (send_ping (env i))) :=
    runLoopAux_outcomes env count.toNat
  refine ⟨hfilter.trans hmain, ?_, Int.toNat_of_nonneg h⟩
  rw [hfilter, hmain]
  simp

/-- Witness for C8 at count = 4 with the mixed environment. -/
theorem c8_outcome_events_witness :
    (0 : ℤ) ≤ 4 ∧
      ((sessionEvents 4 pingEnvMixed).filter isOutcomeEvent).length
        = (4 : ℤ).toNat :=
  ⟨by decide, (c8_outcome_events 4 pingEnvMixed (by decide)).2.1⟩

/-- C9: an iteration whose send_ping call returns None leaves
successful_pings and total_time unchanged. -/
theorem c9_frame (env : ProbeEnv) (st : ℕ × ℚ)
    (h : send_ping env = none) : pingStep env st = st := by
  unfold pingStep
  rw [h]

/-- Witness for C9: a resolution failure leaves the accumulator (3, 7)
unchanged. -/
theorem c9_frame_witness :
    send_ping ProbeEnv.resolutionFailure = none ∧
      pingStep ProbeEnv.resolutionFailure (3, 7) = (3, 7) :=
  ⟨rfl, c9_frame ProbeEnv.resolutionFailure (3, 7) rfl⟩

/-- C10: a negative count behaves exactly like count = 0: range(count)
is empty, so no probe is attempted, no attempt events are emitted, the
accumulator stays (0, 0), and the no-responses summary is produced. -/
theorem c10_negative_count (count : ℤ) (env : ℕ → ProbeEnv) (h : count < 0) :
    runSession count env = runSession 0 env ∧
      (runSession count env).2 = [] ∧
      (runSession count env).1 = (0, 0) ∧
      sessionSummary count env = Summary.noResponses ∧
      (sessionEvents count env).filter isOutcomeEvent = [] := by
  have h0 : count.toNat = 0 := Int.toNat_of_nonpos (le_of_lt h)
  have hr : runSession count env = runSession 0 env := by
    unfold runSession
    rw [h0]
    rfl
  refine ⟨hr, ?_, ?_, ?_, ?_⟩
  · rw [hr]
    rfl
  · rw [hr]
    rfl
  · unfold sessionSummary
    rw [hr]
    rfl
  · unfold sessionEvents
    rw [hr]
    simp [runSession, runLoopAux, summaryEvents, isOutcomeEvent]

/-- Witness for C10 at count = -3. -/
theorem c10_negative_count_witness :
    ((-3 : ℤ) < 0) ∧ sessionSummary (-3) allTimeoutEnv = Summary.noResponses :=
  ⟨by decide, (c10_negative_count (-3) allTimeoutEnv (by decide)).2.2.2.1⟩
